import Mathlib

/-!
# Verification of the dataport guarded-access and binding core

Shallow embedding of the `dataport` repository's versioned value cell,
read/write guard protocol, bound port variants and the `PortVariant`
dispatch layer, together with proofs of the specified properties.

Machine integers (`u32`) are modelled as `Nat` with explicit bound checks
mirroring the source (`SequenceNumber::increment` tests `self.0 < u32::MAX`
before adding, so no implicit overflow can occur).
-/

namespace Dataport

/-! ## SequenceNumber (src/sequence_number.rs and src/bind/sequence_number.rs)

Both files define the same structure: a `u32` counter, `Default` (0),
`increment` (checked `+1`, wrapping to `1` at `u32::MAX`) and `value`.
-/

/-- Source: `u32::MAX` -/
def u32MAX : Nat := 4294967295

namespace SequenceNumber

/-- Source: `SequenceNumber::default()` — the counter starts at 0. -/
def default : Nat := 0

/-- Source: `SequenceNumber::increment`: `if self.0 < u32::MAX { self.0 += 1 } else { self.0 = 1 }`. -/
def increment (n : Nat) : Nat :=
  if n < u32MAX then n + 1 else 1

end SequenceNumber

/-! ## PortValue (src/port_value.rs)

`PortValue<T>(Option<T>, SequenceNumber)`: the versioned cell backing a
port. `set`/`replace`/`take` each call `self.1.increment()` exactly once.
-/

structure PortValue (T : Type) where
  val : Option T
  seq : Nat

namespace PortValue

/-- Source: `PortValue::default()` — `Self(None, SequenceNumber::default())`. -/
def default (T : Type) : PortValue T := ⟨none, SequenceNumber.default⟩

/-- Source: `PortValue::is_some`. -/
def is_some (c : PortValue T) : Bool := c.val.isSome

/-- Source: `PortValue::is_none`. -/
def is_none (c : PortValue T) : Bool := c.val.isNone

/-- Source: `PortValue::sequence_number`. -/
def sequence_number (c : PortValue T) : Nat := c.seq

/-- Source: `PortValue::get` — clone of the optional value, no mutation. -/
def get (c : PortValue T) : Option T := c.val

/-- Source: `PortValue::set` — `self.1.increment(); self.0 = Some(value)`. -/
def set (c : PortValue T) (v : T) : PortValue T :=
  ⟨some v, SequenceNumber.increment c.seq⟩

/-- Source: `PortValue::replace` — `self.1.increment(); self.0.replace(value)`;
returns the previous value together with the updated cell. -/
def replace (c : PortValue T) (v : T) : Option T × PortValue T :=
  (c.val, ⟨some v, SequenceNumber.increment c.seq⟩)

/-- Source: `PortValue::take` — `self.1.increment(); self.0.take()`;
returns the removed value together with the updated (now empty) cell. -/
def take (c : PortValue T) : Option T × PortValue T :=
  (c.val, ⟨none, SequenceNumber.increment c.seq⟩)

end PortValue

/-! ## The reader-writer lock (spin::RwLock as used by src/port_value.rs)

State of one cell's lock: a count of held read locks and a write-lock
flag. `try_read` fails while the write lock is held; `try_write` fails
while any lock is held. `force_read_decrement` / `force_write_unlock`
are the manual releases used by the guards' `Drop` impls.
-/

structure RwLockState where
  readers : Nat
  writer : Bool
deriving DecidableEq

namespace RwLockState

def unlocked : RwLockState := ⟨0, false⟩

/-- Source: `RwLock::try_read` — succeeds (incrementing the reader count) unless
the write lock is held. -/
def tryRead (l : RwLockState) : Option RwLockState :=
  if l.writer then none else some ⟨l.readers + 1, l.writer⟩

/-- Source: `RwLock::try_write` — succeeds (setting the writer flag) only when no
lock at all is held. -/
def tryWrite (l : RwLockState) : Option RwLockState :=
  if l.writer ∨ 0 < l.readers then none else some ⟨l.readers, true⟩

/-- Source: `RwLock::force_read_decrement` (used by `PortValueReadGuard::drop`). -/
def forceReadDecrement (l : RwLockState) : RwLockState :=
  ⟨l.readers - 1, l.writer⟩

/-- Source: `RwLock::force_write_unlock` (used by `PortValueWriteGuard::drop`). -/
def forceWriteUnlock (l : RwLockState) : RwLockState :=
  ⟨l.readers, false⟩

end RwLockState

/-! ## Errors of the guard layer (src/port_value.rs uses these two) -/

inductive Error where
  | IsLocked (port : String)
  | NoValueSet (port : String)
deriving DecidableEq

/-! ## PortValueReadGuard (src/port_value.rs)

`new` blocks on `value.read()`, leaks the lock guard, then checks the
optional value: present → guard constructed (read lock stays held until
`drop`); absent → `Err(NoValueSet)` is returned WITHOUT releasing the
leaked read lock (the early `return` skips any decrement).
`try_new` does the same with `try_read`, returning `Err(IsLocked)` when
the lock attempt fails.

The functions return the guard's deref target (the `T` behind `ptr_t`)
together with the lock state after the call.
-/

namespace PortValueReadGuard

/-- Source: `PortValueReadGuard::new` — the state transition once the blocking
`value.read()` has been granted (the code contains no `IsLocked` path). -/
def new (port : String) (l : RwLockState) (c : PortValue T) :
    Except Error T × RwLockState :=
  -- `value.read()` acquires, `RwLockReadGuard::leak` keeps it held
  let l' : RwLockState := ⟨l.readers + 1, l.writer⟩
  match c.val with
  | some v => (.ok v, l')
  | none => (.error (.NoValueSet port), l')

/-- Source: `PortValueReadGuard::try_new`. -/
def try_new (port : String) (l : RwLockState) (c : PortValue T) :
    Except Error T × RwLockState :=
  match l.tryRead with
  | some l' =>
      match c.val with
      | some v => (.ok v, l')
      | none => (.error (.NoValueSet port), l')
  | none => (.error (.IsLocked port), l)

/-- Source: `PortValueReadGuard::drop` — `force_read_decrement`. -/
def dropG (l : RwLockState) : RwLockState := l.forceReadDecrement

end PortValueReadGuard

/-! ## PortValueWriteGuard (src/port_value.rs)

The guard records the deref target, a pointer to the cell's sequence
number (modelled by carrying the number itself) and the `modified` flag,
set by every `deref_mut`. `drop` increments the sequence number exactly
once when `modified` and releases the write lock.
-/

structure PortValueWriteGuard (T : Type) where
  value : T
  seq : Nat
  modified : Bool

/-- One access through a held write guard: a plain `Deref` (no effect) or
a `DerefMut` followed by an arbitrary mutation `f` of the target. -/
inductive GuardAccess (T : Type) where
  | readAccess
  | writeAccess (f : T → T)

namespace PortValueWriteGuard

/-- Source: `PortValueWriteGuard::new` — blocking `value.write()`, leaked; when
the cell is empty, `Err(NoValueSet)` is returned WITHOUT releasing the
leaked write lock. -/
def new (port : String) (l : RwLockState) (c : PortValue T) :
    Except Error (PortValueWriteGuard T) × RwLockState :=
  let l' : RwLockState := ⟨l.readers, true⟩
  match c.val with
  | some v => (.ok ⟨v, c.seq, false⟩, l')
  | none => (.error (.NoValueSet port), l')

/-- Source: `PortValueWriteGuard::try_new`. -/
def try_new (port : String) (l : RwLockState) (c : PortValue T) :
    Except Error (PortValueWriteGuard T) × RwLockState :=
  match l.tryWrite with
  | some l' =>
      match c.val with
      | some v => (.ok ⟨v, c.seq, false⟩, l')
      | none => (.error (.NoValueSet port), l')
  | none => (.error (.IsLocked port), l)

/-- Effect of one access on the guard: `deref` leaves it unchanged,
`deref_mut` sets `modified = true` and hands the target to the caller. -/
def access (g : PortValueWriteGuard T) : GuardAccess T → PortValueWriteGuard T
  | .readAccess => g
  | .writeAccess f => ⟨f g.value, g.seq, true⟩

/-- A whole guarded session: the accesses performed in order. -/
def run (g : PortValueWriteGuard T) (ops : List (GuardAccess T)) :
    PortValueWriteGuard T :=
  ops.foldl access g

/-- Source: `PortValueWriteGuard::drop` — increments the sequence number exactly
once iff `modified`, then `force_write_unlock`; returns the cell's final
value, its final sequence number and the lock state. -/
def dropG (g : PortValueWriteGuard T) (l : RwLockState) :
    (T × Nat) × RwLockState :=
  ((g.value, if g.modified then SequenceNumber.increment g.seq else g.seq),
    l.forceWriteUnlock)

end PortValueWriteGuard

/-! ## Reachable cell states (public port operations over one cell)

The operations of the top-level port API that touch a cell's contents:
`set`, `replace`, `take` (src/port_value.rs, dispatched from the port
types) and a complete write-guarded session (construction, accesses,
drop). Guard construction on an empty cell fails (`NoValueSet`), leaving
the cell's contents unchanged. Read paths never change the cell.
-/

inductive PortOp (T : Type) where
  | setOp (v : T)
  | replaceOp (v : T)
  | takeOp
  | writeSession (ops : List (GuardAccess T))

namespace PortOp

/-- The effect on the cell's contents of one public operation. -/
def apply (c : PortValue T) : PortOp T → PortValue T
  | .setOp v => c.set v
  | .replaceOp v => (c.replace v).2
  | .takeOp => (c.take).2
  | .writeSession ops =>
      match c.val with
      | none => c  -- guard construction fails with NoValueSet
      | some v =>
          let g := PortValueWriteGuard.run ⟨v, c.seq, false⟩ ops
          let r := ((g.value, if g.modified then SequenceNumber.increment g.seq else g.seq))
          ⟨some r.1, r.2⟩

/-- States reachable from an initial cell through public operations. -/
def applyAll (c : PortValue T) (ops : List (PortOp T)) : PortValue T :=
  ops.foldl apply c

end PortOp

/-- Source: `with_value` initial cell: the constructors build
`SequenceNumber::default()` then `increment()` once and store the value
(src/bind/in_port.rs, src/bind/in_out_port.rs, src/bind/out_port.rs). -/
def PortValue.withValue (v : T) : PortValue T :=
  ⟨some v, SequenceNumber.increment SequenceNumber.default⟩

/-! ## The bind port family (src/bind/)

`PortValuePtr = Arc<RwLock<(Box<dyn AnyPortValue>, SequenceNumber)>>`: a
shared handle to a lock-protected pair of a type-erased cell and the
cell's sequence number. We model the heap of such cells as a map from
handle to `BCell`; a bound port is exactly one handle (`self.0`).

The module `bind::port_value` is declared in src/bind/mod.rs but its file
is absent from the sources; where its behaviour is needed it is modelled
from the spec (see the individual doc comments). The type-erased payload
is modelled as `Nat` with a runtime type identity `tyId` (`TypeId`);
`downcast` to a requested type succeeds iff the identities are equal.
-/

/-- Target of one `PortValuePtr`: the boxed type-erased `PortValue<T>`
(runtime type identity plus optional payload) and the shared
`SequenceNumber` of the pair. -/
structure BCell where
  tyId : Nat
  val : Option Nat
  seq : Nat
deriving DecidableEq

/-- The heap of shared cells: handle (pointer identity) to cell. -/
structure BindSys where
  cells : Nat → BCell

/-- Errors of the bind family, named as in the bind sources. -/
inductive BindError where
  | DataType
  | WrongDataType
  | PortType
  | OtherNotFound
  | IsLocked
  | NoValueSet
deriving DecidableEq

/-- The spec's "wrong data type" condition: the stored value's type does
not match the requested one. The bind sources spell it `Error::DataType`
(src/bind/in_port.rs) or `Error::WrongDataType` (src/bind/in_out_port.rs,
src/bind/out_port.rs). -/
def BindError.isWrongDataType : BindError → Bool
  | .DataType => true
  | .WrongDataType => true
  | _ => false

/-- Write `v` into the cell at `h`, bumping the pair's sequence number
once (the `any_value.1.increment()` of the bind setters). -/
def BindSys.setCell (s : BindSys) (h : Nat) (ov : Option Nat) : BindSys :=
  ⟨fun h' => if h' = h
    then ⟨(s.cells h).tyId, ov, SequenceNumber.increment (s.cells h).seq⟩
    else s.cells h'⟩

/-- Source: `BoundInPort(PortValuePtr)` — a read-only bound port. -/
structure BoundInPort where
  handle : Nat
deriving DecidableEq

/-- Source: `BoundInOutPort(PortValuePtr)` — a read-write bound port. -/
structure BoundInOutPort where
  handle : Nat
deriving DecidableEq

/-- Source: `BoundOutPort(PortValuePtr)` — a write-only bound port. -/
structure BoundOutPort where
  handle : Nat
deriving DecidableEq

/-- Source: `PortVariant` (src/port_variant.rs). -/
inductive PortVariant where
  | InBound (p : BoundInPort)
  | InOutBound (p : BoundInOutPort)
  | OutBound (p : BoundOutPort)
deriving DecidableEq

/-- Source: `value()` of the port wrapped in a variant: a clone of its
`PortValuePtr`, i.e. the same handle. -/
def PortVariant.handleOf : PortVariant → Nat
  | .InBound p => p.handle
  | .InOutBound p => p.handle
  | .OutBound p => p.handle

/-! ### Constructors (identical code in the three bind port files)

`new::<T>()` builds `(Box::new(PortValue::<T>::empty()), SequenceNumber::default())`;
`with_value::<T>(v)` increments a default `SequenceNumber` once and
builds `(Box::new(PortValue::new(v)), sq)`. `PortValue::empty`/`new` are
from the missing `bind::port_value`; modelled from the spec: the
`VersionedCell`-backing type-erased value is created empty or holding
exactly the given value. -/

/-- Fresh cell built by `BoundInPort::new::<T>()`. -/
def BoundInPort.newCell (tid : Nat) : BCell :=
  ⟨tid, none, SequenceNumber.default⟩

/-- Fresh cell built by `BoundInPort::with_value::<T>(v)`. -/
def BoundInPort.withValueCell (tid v : Nat) : BCell :=
  ⟨tid, some v, SequenceNumber.increment SequenceNumber.default⟩

/-- Fresh cell built by `BoundInOutPort::new::<T>()`. -/
def BoundInOutPort.newCell (tid : Nat) : BCell :=
  ⟨tid, none, SequenceNumber.default⟩

/-- Fresh cell built by `BoundInOutPort::with_value::<T>(v)`. -/
def BoundInOutPort.withValueCell (tid v : Nat) : BCell :=
  ⟨tid, some v, SequenceNumber.increment SequenceNumber.default⟩

/-- Fresh cell built by `BoundOutPort::new::<T>()`. -/
def BoundOutPort.newCell (tid : Nat) : BCell :=
  ⟨tid, none, SequenceNumber.default⟩

/-- Fresh cell built by `BoundOutPort::with_value::<T>(v)`. -/
def BoundOutPort.withValueCell (tid v : Nat) : BCell :=
  ⟨tid, some v, SequenceNumber.increment SequenceNumber.default⟩

/-! ### set_value / bind_to / use_from_bound -/

/-- Source: `BoundInOutPort::set_value`: compare the `type_id` of self's stored
value with that of the incoming pointer's; on match adopt the handle
(`self.0 = value`), else `Err(Error::WrongDataType)`. Returns the call's
result, the (possibly updated) port and the heap, which is never touched. -/
def BoundInOutPort.set_value (p : BoundInOutPort) (vptr : Nat) (s : BindSys) :
    Except BindError Unit × BoundInOutPort × BindSys :=
  if (s.cells p.handle).tyId = (s.cells vptr).tyId
  then (.ok (), ⟨vptr⟩, s)
  else (.error .WrongDataType, p, s)

/-- Source: `BoundInPort::set_value` — same comparison, but the error variant is
`Error::DataType`. -/
def BoundInPort.set_value (p : BoundInPort) (vptr : Nat) (s : BindSys) :
    Except BindError Unit × BoundInPort × BindSys :=
  if (s.cells p.handle).tyId = (s.cells vptr).tyId
  then (.ok (), ⟨vptr⟩, s)
  else (.error .DataType, p, s)

/-- Source: `BoundOutPort::set_value` — error variant `Error::WrongDataType`. -/
def BoundOutPort.set_value (p : BoundOutPort) (vptr : Nat) (s : BindSys) :
    Except BindError Unit × BoundOutPort × BindSys :=
  if (s.cells p.handle).tyId = (s.cells vptr).tyId
  then (.ok (), ⟨vptr⟩, s)
  else (.error .WrongDataType, p, s)

/-- Source: `BoundInOutPort::bind_to` (BindCommons): match on the variant and
adopt its `value()` pointer via `set_value`. -/
def BoundInOutPort.bind_to (p : BoundInOutPort) (other : PortVariant) (s : BindSys) :
    Except BindError Unit × BoundInOutPort × BindSys :=
  match other with
  | .InBound q => p.set_value q.handle s
  | .InOutBound q => p.set_value q.handle s
  | .OutBound q => p.set_value q.handle s

/-- Source: `BoundInPort::use_from_bound` — `self.set_value(other.value())`. -/
def BoundInPort.use_from_bound (p : BoundInPort) (otherHandle : Nat) (s : BindSys) :
    Except BindError Unit × BoundInPort × BindSys :=
  p.set_value otherHandle s

/-! ### Typed access through bound ports -/

/-- Source: `BoundInOutPort::get::<T>`: downcast the stored value to
`PortValue<T>` and clone its contents; `Err(WrongDataType)` on type
mismatch. -/
def BoundInOutPort.get (tid : Nat) (p : BoundInOutPort) (s : BindSys) :
    Except BindError (Option Nat) :=
  if (s.cells p.handle).tyId = tid
  then .ok (s.cells p.handle).val
  else .error .WrongDataType

/-- Source: `BoundInPort::get::<T>` — error variant `Error::DataType`. -/
def BoundInPort.get (tid : Nat) (p : BoundInPort) (s : BindSys) :
    Except BindError (Option Nat) :=
  if (s.cells p.handle).tyId = tid
  then .ok (s.cells p.handle).val
  else .error .DataType

/-- Source: `BoundInOutPort::set::<T>`: downcast mutably, `t_ref.set(value)`,
increment the pair's sequence number once. -/
def BoundInOutPort.set (tid v : Nat) (p : BoundInOutPort) (s : BindSys) :
    Except BindError Unit × BindSys :=
  if (s.cells p.handle).tyId = tid
  then (.ok (), s.setCell p.handle (some v))
  else (.error .WrongDataType, s)

/-- Source: `BoundOutPort::set::<T>` — same shape as the read-write port's. -/
def BoundOutPort.set (tid v : Nat) (p : BoundOutPort) (s : BindSys) :
    Except BindError Unit × BindSys :=
  if (s.cells p.handle).tyId = tid
  then (.ok (), s.setCell p.handle (some v))
  else (.error .WrongDataType, s)

/-- Source: `BoundInOutPort::replace::<T>`: downcast mutably, increment the
pair's sequence number, return the previous value. -/
def BoundInOutPort.replace (tid v : Nat) (p : BoundInOutPort) (s : BindSys) :
    Except BindError (Option Nat) × BindSys :=
  if (s.cells p.handle).tyId = tid
  then (.ok (s.cells p.handle).val, s.setCell p.handle (some v))
  else (.error .WrongDataType, s)

/-- Source: `BoundInOutPort::take::<T>`: downcast mutably, increment the pair's
sequence number, remove and return the value. -/
def BoundInOutPort.take (tid : Nat) (p : BoundInOutPort) (s : BindSys) :
    Except BindError (Option Nat) × BindSys :=
  if (s.cells p.handle).tyId = tid
  then (.ok (s.cells p.handle).val, s.setCell p.handle none)
  else (.error .WrongDataType, s)

/-- Source: `sequence_number()` of a bound port: the pair's second component. -/
def BindSys.sequence_number (s : BindSys) (h : Nat) : Nat := (s.cells h).seq

/-! ### Bind-family guards

Modelled from the spec: `bind::port_value`'s `PortValueReadGuard::new /
try_new` and `PortValueWriteGuard::new / try_new` are absent from src.
Per §4.3 of the spec, guard construction requires the cell to hold a
value of the requested type: empty → "no value set"; non-blocking
attempt on a held lock → "is locked"; type mismatch → the wrong-data-type
condition (per the `BindIn`/`BindOut` docs in src/bind/mod.rs). The read
guard's deref target is returned as the witness of access. -/

/-- Modelled from the spec: blocking bind-family read-guard construction
(`bind::port_value::PortValueReadGuard::new`). -/
def bindReadGuard (tid h : Nat) (s : BindSys) : Except BindError Nat :=
  if (s.cells h).tyId = tid then
    match (s.cells h).val with
    | some v => .ok v
    | none => .error .NoValueSet
  else .error .DataType

/-- Modelled from the spec: non-blocking bind-family read-guard
construction (`bind::port_value::PortValueReadGuard::try_new`). -/
def bindTryReadGuard (l : RwLockState) (tid h : Nat) (s : BindSys) :
    Except BindError Nat :=
  match l.tryRead with
  | some _ => bindReadGuard tid h s
  | none => .error .IsLocked

/-- Modelled from the spec: blocking bind-family write-guard construction
(`bind::port_value::PortValueWriteGuard::new`). -/
def bindWriteGuard (tid h : Nat) (s : BindSys) : Except BindError Nat :=
  if (s.cells h).tyId = tid then
    match (s.cells h).val with
    | some v => .ok v
    | none => .error .NoValueSet
  else .error .DataType

/-- Modelled from the spec: non-blocking bind-family write-guard
construction (`bind::port_value::PortValueWriteGuard::try_new`). -/
def bindTryWriteGuard (l : RwLockState) (tid h : Nat) (s : BindSys) :
    Except BindError Nat :=
  match l.tryWrite with
  | some _ => bindWriteGuard tid h s
  | none => .error .IsLocked

/-! ### PortVariant dispatch (src/port_variant.rs) -/

namespace PortVariant

/-- Source: `PortVariant::get::<T>` — `OutBound` answers `Err(Error::PortType)`. -/
def get (tid : Nat) (v : PortVariant) (s : BindSys) :
    Except BindError (Option Nat) :=
  match v with
  | .InBound p => p.get tid s
  | .InOutBound p => p.get tid s
  | .OutBound _ => .error .PortType

/-- Source: `PortVariant::read::<T>` — `OutBound` answers `Err(Error::PortType)`. -/
def read (tid : Nat) (v : PortVariant) (s : BindSys) : Except BindError Nat :=
  match v with
  | .InBound p => bindReadGuard tid p.handle s
  | .InOutBound p => bindReadGuard tid p.handle s
  | .OutBound _ => .error .PortType

/-- Source: `PortVariant::try_read::<T>` — `OutBound` answers `Err(Error::PortType)`. -/
def try_read (l : RwLockState) (tid : Nat) (v : PortVariant) (s : BindSys) :
    Except BindError Nat :=
  match v with
  | .InBound p => bindTryReadGuard l tid p.handle s
  | .InOutBound p => bindTryReadGuard l tid p.handle s
  | .OutBound _ => .error .PortType

/-- Source: `PortVariant::set::<T>` — `InBound` answers `Err(Error::PortType)`. -/
def set (tid v : Nat) (pv : PortVariant) (s : BindSys) :
    Except BindError Unit × BindSys :=
  match pv with
  | .OutBound p => p.set tid v s
  | .InOutBound p => p.set tid v s
  | .InBound _ => (.error .PortType, s)

/-- Source: `PortVariant::write::<T>` — `InBound` answers `Err(Error::PortType)`. -/
def write (tid : Nat) (pv : PortVariant) (s : BindSys) : Except BindError Nat :=
  match pv with
  | .OutBound p => bindWriteGuard tid p.handle s
  | .InOutBound p => bindWriteGuard tid p.handle s
  | .InBound _ => .error .PortType

/-- Source: `PortVariant::try_write::<T>` — `InBound` answers `Err(Error::PortType)`. -/
def try_write (l : RwLockState) (tid : Nat) (pv : PortVariant) (s : BindSys) :
    Except BindError Nat :=
  match pv with
  | .OutBound p => bindTryWriteGuard l tid p.handle s
  | .InOutBound p => bindTryWriteGuard l tid p.handle s
  | .InBound _ => .error .PortType

/-- Source: `PortVariant::replace::<T>` — only `InOutBound` supports it. -/
def replace (tid v : Nat) (pv : PortVariant) (s : BindSys) :
    Except BindError (Option Nat) × BindSys :=
  match pv with
  | .InOutBound p => p.replace tid v s
  | .InBound _ => (.error .PortType, s)
  | .OutBound _ => (.error .PortType, s)

/-- Source: `PortVariant::take::<T>` — only `InOutBound` supports it. -/
def take (tid : Nat) (pv : PortVariant) (s : BindSys) :
    Except BindError (Option Nat) × BindSys :=
  match pv with
  | .InOutBound p => p.take tid s
  | .InBound _ => (.error .PortType, s)
  | .OutBound _ => (.error .PortType, s)

end PortVariant

/-! ## Auxiliary definitions for the statements and witnesses -/

/-- Discriminator for mutable accesses in a guarded session. -/
def GuardAccess.isWrite : GuardAccess T → Bool
  | .readAccess => false
  | .writeAccess _ => true

/-- The cell invariant of the spec: sequence number 0 means "never
written", so the cell must be empty. -/
def seqInv (c : PortValue T) : Prop := c.seq = 0 → c.val = none

/-- A concrete heap for witnesses: every handle refers to a cell with
type identity 5 holding value 2 at sequence number 3. -/
def witnessSysA : BindSys := ⟨fun _ => ⟨5, some 2, 3⟩⟩

/-- A concrete heap for witnesses: handle 0 refers to a cell of type
identity 0 and every other handle to one of type identity 1. -/
def witnessSysB : BindSys :=
  ⟨fun h => if h = 0 then ⟨0, some 1, 1⟩ else ⟨1, some 2, 1⟩⟩

/-! ## Helper lemmas -/

theorem SequenceNumber.increment_ne_zero (n : Nat) :
    SequenceNumber.increment n ≠ 0 := by
  unfold SequenceNumber.increment
  split <;> simp

theorem SequenceNumber.iterate_increment_ne_zero (k n : Nat) (h : n ≠ 0) :
    SequenceNumber.increment^[k] n ≠ 0 := by
  induction k generalizing n with
  | zero => simpa using h
  | succ k ih =>
      rw [Function.iterate_succ_apply]
      exact ih _ (SequenceNumber.increment_ne_zero n)

theorem PortValueWriteGuard.access_seq (g : PortValueWriteGuard T)
    (op : GuardAccess T) : (g.access op).seq = g.seq := by
  cases op <;> rfl

theorem PortValueWriteGuard.run_seq (g : PortValueWriteGuard T)
    (ops : List (GuardAccess T)) : (g.run ops).seq = g.seq := by
  induction ops generalizing g with
  | nil => rfl
  | cons op ops ih =>
      show ((g.access op).run ops).seq = g.seq
      rw [ih, PortValueWriteGuard.access_seq]

theorem PortValueWriteGuard.run_modified (g : PortValueWriteGuard T)
    (ops : List (GuardAccess T)) :
    (g.run ops).modified = (g.modified || ops.any GuardAccess.isWrite) := by
  induction ops generalizing g with
  | nil => simp [PortValueWriteGuard.run]
  | cons op ops ih =>
      show ((g.access op).run ops).modified = _
      rw [ih]
      cases op <;>
        simp [PortValueWriteGuard.access, GuardAccess.isWrite, Bool.or_assoc]

theorem any_isWrite_iff (ops : List (GuardAccess T)) :
    ops.any GuardAccess.isWrite = true ↔ ∃ f, GuardAccess.writeAccess f ∈ ops := by
  rw [List.any_eq_true]
  constructor
  · rintro ⟨x, hx, hw⟩
    cases x with
    | readAccess => simp [GuardAccess.isWrite] at hw
    | writeAccess f => exact ⟨f, hx⟩
  · rintro ⟨f, hf⟩
    exact ⟨_, hf, rfl⟩

theorem SequenceNumber.increment_zero : SequenceNumber.increment 0 = 1 := by
  unfold SequenceNumber.increment
  split <;> rfl

theorem seqInv_apply (c : PortValue T) (op : PortOp T) (h : seqInv c) :
    seqInv (PortOp.apply c op) := by
  cases op with
  | setOp v =>
      intro hs
      exact absurd hs (SequenceNumber.increment_ne_zero _)
  | replaceOp v =>
      intro hs
      exact absurd hs (SequenceNumber.increment_ne_zero _)
  | takeOp =>
      intro hs
      exact absurd hs (SequenceNumber.increment_ne_zero _)
  | writeSession ops =>
      intro hs
      unfold PortOp.apply at hs ⊢
      revert hs
      cases hv : c.val with
      | none => intro hs; exact hv
      | some v =>
          intro hs
          exfalso
          have hs' : (if (PortValueWriteGuard.run ⟨v, c.seq, false⟩ ops).modified = true
              then SequenceNumber.increment
                (PortValueWriteGuard.run ⟨v, c.seq, false⟩ ops).seq
              else (PortValueWriteGuard.run ⟨v, c.seq, false⟩ ops).seq) = 0 := hs
          by_cases hm :
              (PortValueWriteGuard.run ⟨v, c.seq, false⟩ ops).modified = true
          · rw [if_pos hm] at hs'
            exact SequenceNumber.increment_ne_zero _ hs'
          · rw [if_neg hm, PortValueWriteGuard.run_seq] at hs'
            rw [h hs'] at hv
            exact Option.noConfusion hv

theorem seqInv_applyAll (c : PortValue T) (ops : List (PortOp T))
    (h : seqInv c) : seqInv (PortOp.applyAll c ops) := by
  induction ops generalizing c with
  | nil => exact h
  | cons op ops ih => exact ih _ (seqInv_apply c op h)

/-! ## The claims -/

/-- C7: For every SequenceNumber, its value starts at 0; each increment
call increases the value by exactly 1 except that incrementing from the
maximum representable value (4294967295) wraps the value to 1, so after
any sequence of increments starting from a non-zero value the value
never returns to 0. -/
theorem C7_sequence_number_increment (n k : Nat) (h : n ≠ 0) :
    SequenceNumber.default = 0 ∧
    (n < 4294967295 → SequenceNumber.increment n = n + 1) ∧
    SequenceNumber.increment 4294967295 = 1 ∧
    SequenceNumber.increment^[k] n ≠ 0 := by
  refine ⟨rfl, ?_, ?_, SequenceNumber.iterate_increment_ne_zero k n h⟩
  · intro hn
    simp [SequenceNumber.increment, u32MAX, hn]
  · simp [SequenceNumber.increment, u32MAX]

/-- Witness for C7 at the concrete input n = 3, k = 5. -/
theorem C7_sequence_number_increment_witness :
    SequenceNumber.default = 0 ∧
    (3 < 4294967295 → SequenceNumber.increment 3 = 3 + 1) ∧
    SequenceNumber.increment 4294967295 = 1 ∧
    SequenceNumber.increment^[5] 3 ≠ 0 :=
  C7_sequence_number_increment 3 5 (by decide)

/-- C8: For every value v and every port variant kind, a port constructed
with `with_value(v)` holds `Some(v)` and has sequence number exactly 1
immediately after construction, whereas a port constructed with `new()`
holds no value and has sequence number 0. -/
theorem C8_construction_states (tid v : Nat) :
    (BoundInPort.withValueCell tid v).val = some v ∧
    (BoundInPort.withValueCell tid v).seq = 1 ∧
    (BoundInOutPort.withValueCell tid v).val = some v ∧
    (BoundInOutPort.withValueCell tid v).seq = 1 ∧
    (BoundOutPort.withValueCell tid v).val = some v ∧
    (BoundOutPort.withValueCell tid v).seq = 1 ∧
    (BoundInPort.newCell tid).val = none ∧
    (BoundInPort.newCell tid).seq = 0 ∧
    (BoundInOutPort.newCell tid).val = none ∧
    (BoundInOutPort.newCell tid).seq = 0 ∧
    (BoundOutPort.newCell tid).val = none ∧
    (BoundOutPort.newCell tid).seq = 0 := by
  simp [BoundInPort.withValueCell, BoundInOutPort.withValueCell,
    BoundOutPort.withValueCell, BoundInPort.newCell, BoundInOutPort.newCell,
    BoundOutPort.newCell, SequenceNumber.increment_zero, SequenceNumber.default]

/-- C9: For every read-write port of value type T and every value v:
after `set(v)`, a subsequent `take()` returns `Some(v)`, and after that
`take()` a subsequent `get()` returns no value (the cell is empty). -/
theorem C9_set_take_get_round_trip {T : Type} (c : PortValue T) (v : T)
    (p : BoundInOutPort) (s : BindSys) (tid w : Nat)
    (htid : (s.cells p.handle).tyId = tid) :
    ((c.set v).take).1 = some v ∧
    (((c.set v).take).2).get = none ∧
    (p.take tid (p.set tid w s).2).1 = .ok (some w) ∧
    BoundInOutPort.get tid p (p.take tid (p.set tid w s).2).2 = .ok none := by
  refine ⟨rfl, rfl, ?_, ?_⟩
  · simp [BoundInOutPort.set, BoundInOutPort.take, BindSys.setCell, htid]
  · simp [BoundInOutPort.set, BoundInOutPort.take, BoundInOutPort.get,
      BindSys.setCell, htid]

/-- Witness for C9 at a concrete cell, value and system. -/
theorem C9_set_take_get_round_trip_witness :
    (((PortValue.default Nat).set 7).take).1 = some 7 ∧
    ((((PortValue.default Nat).set 7).take).2).get = none ∧
    (BoundInOutPort.take 0 ⟨0⟩
      (BoundInOutPort.set 0 42 ⟨0⟩ ⟨fun _ => ⟨0, none, 0⟩⟩).2).1 = .ok (some 42) ∧
    BoundInOutPort.get 0 ⟨0⟩
      (BoundInOutPort.take 0 ⟨0⟩
        (BoundInOutPort.set 0 42 ⟨0⟩ ⟨fun _ => ⟨0, none, 0⟩⟩).2).2 = .ok none :=
  C9_set_take_get_round_trip (PortValue.default Nat) 7 ⟨0⟩
    ⟨fun _ => ⟨0, none, 0⟩⟩ 0 42 rfl

/-- C3: For every successfully constructed write guard over a cell, when
the guard is released (dropped): if at least one mutable dereference
occurred during the guard's lifetime, the cell's sequence number is
incremented exactly once (regardless of how many mutable accesses
occurred); if no mutable dereference occurred, the sequence number is
unchanged. -/
theorem C3_write_guard_one_increment {T : Type} (v0 : T) (s0 : Nat)
    (l : RwLockState) (ops : List (GuardAccess T)) :
    ((∃ f, GuardAccess.writeAccess f ∈ ops) →
      ((PortValueWriteGuard.run ⟨v0, s0, false⟩ ops).dropG l).1.2
        = SequenceNumber.increment s0) ∧
    ((∀ f, GuardAccess.writeAccess f ∉ ops) →
      ((PortValueWriteGuard.run ⟨v0, s0, false⟩ ops).dropG l).1.2 = s0) := by
  have hmod : (PortValueWriteGuard.run ⟨v0, s0, false⟩ ops).modified
      = ops.any GuardAccess.isWrite := by
    rw [PortValueWriteGuard.run_modified]
    simp
  have hseq : (PortValueWriteGuard.run ⟨v0, s0, false⟩ ops).seq = s0 :=
    PortValueWriteGuard.run_seq _ _
  constructor
  · intro hex
    have hany : ops.any GuardAccess.isWrite = true := (any_isWrite_iff ops).mpr hex
    unfold PortValueWriteGuard.dropG
    rw [hmod, hany, if_pos rfl, hseq]
  · intro hnone
    have hany : ops.any GuardAccess.isWrite = false := by
      by_contra hc
      rcases (any_isWrite_iff ops).mp (by simpa using hc) with ⟨f, hf⟩
      exact hnone f hf
    unfold PortValueWriteGuard.dropG
    rw [hmod, hany]
    simpa using hseq

/-- Witness for C3: a session with two mutable accesses bumps the
sequence number once; an access-free session leaves it unchanged. -/
theorem C3_write_guard_one_increment_witness :
    ((PortValueWriteGuard.run ⟨(0 : Nat), 5, false⟩
        [GuardAccess.writeAccess (fun x => x + 1),
         GuardAccess.writeAccess (fun x => x * 2)]).dropG
      RwLockState.unlocked).1.2 = SequenceNumber.increment 5 ∧
    ((PortValueWriteGuard.run ⟨(0 : Nat), 5, false⟩
        [GuardAccess.readAccess]).dropG RwLockState.unlocked).1.2 = 5 :=
  ⟨(C3_write_guard_one_increment 0 5 RwLockState.unlocked _).1
      ⟨fun x => x + 1, by simp⟩,
    (C3_write_guard_one_increment 0 5 RwLockState.unlocked _).2
      (by intro f hf; simp at hf)⟩

/-- C10: For every PortVariant, dispatching an operation outside the
wrapped variant's capability set returns the wrong-port-type error
(`Error::PortType`) rather than crashing: get/read/try_read on a
write-only (OutBound) variant, set/write/try_write on a read-only
(InBound) variant, and replace/take on any variant other than read-write
(InOutBound) all return that error and leave the port's storage
unchanged. -/
theorem C10_variant_dispatch_errors (l : RwLockState) (tid w : Nat)
    (pin : BoundInPort) (pout : BoundOutPort) (s : BindSys) :
    PortVariant.get tid (.OutBound pout) s = .error .PortType ∧
    PortVariant.read tid (.OutBound pout) s = .error .PortType ∧
    PortVariant.try_read l tid (.OutBound pout) s = .error .PortType ∧
    PortVariant.set tid w (.InBound pin) s = (.error .PortType, s) ∧
    PortVariant.write tid (.InBound pin) s = .error .PortType ∧
    PortVariant.try_write l tid (.InBound pin) s = .error .PortType ∧
    PortVariant.replace tid w (.InBound pin) s = (.error .PortType, s) ∧
    PortVariant.replace tid w (.OutBound pout) s = (.error .PortType, s) ∧
    PortVariant.take tid (.InBound pin) s = (.error .PortType, s) ∧
    PortVariant.take tid (.OutBound pout) s = (.error .PortType, s) :=
  ⟨rfl, rfl, rfl, rfl, rfl, rfl, rfl, rfl, rfl, rfl⟩

/-- C6: For every cell, in every state reachable through the public port
operations (new, with_value, get, set, replace, take, guarded access,
binding — binding only swaps handles and never touches a cell's
contents), sequence number 0 implies the cell holds no value; and every
successful set, replace, take or mutable guarded access increments the
sequence number exactly once (one increment per guarded access window,
as the spec states, even when several mutable accesses occur within it). -/
theorem C6_version_zero_means_empty {T : Type} (init : PortValue T)
    (hinit : init = PortValue.default T ∨ ∃ w, init = PortValue.withValue w)
    (ops : List (PortOp T)) (c : PortValue T) (v : T)
    (sess : List (GuardAccess T)) :
    ((PortOp.applyAll init ops).seq = 0 → (PortOp.applyAll init ops).val = none) ∧
    (c.set v).seq = SequenceNumber.increment c.seq ∧
    ((c.replace v).2).seq = SequenceNumber.increment c.seq ∧
    ((c.take).2).seq = SequenceNumber.increment c.seq ∧
    (c.val = some v → (∃ f, GuardAccess.writeAccess f ∈ sess) →
      (PortOp.apply c (.writeSession sess)).seq
        = SequenceNumber.increment c.seq) := by
  refine ⟨?_, rfl, rfl, rfl, ?_⟩
  · refine seqInv_applyAll init ops ?_
    rcases hinit with h0 | ⟨w, hw⟩
    · intro _
      rw [h0]
      rfl
    · intro hs
      rw [hw] at hs
      exact absurd hs
        (SequenceNumber.increment_ne_zero SequenceNumber.default)
  · intro hv hex
    unfold PortOp.apply
    rw [hv]
    have hmod : (PortValueWriteGuard.run ⟨v, c.seq, false⟩ sess).modified = true := by
      rw [PortValueWriteGuard.run_modified]
      simp [(any_isWrite_iff sess).mpr hex]
    show (if (PortValueWriteGuard.run ⟨v, c.seq, false⟩ sess).modified = true
        then SequenceNumber.increment (PortValueWriteGuard.run ⟨v, c.seq, false⟩ sess).seq
        else (PortValueWriteGuard.run ⟨v, c.seq, false⟩ sess).seq)
      = SequenceNumber.increment c.seq
    rw [if_pos hmod, PortValueWriteGuard.run_seq]

/-- Witness for C6: the invariant evaluated after a concrete operation
sequence from an empty cell, and the single increments at a concrete
cell and session. -/
theorem C6_version_zero_means_empty_witness :
    ((PortOp.applyAll (PortValue.default Nat) [PortOp.setOp 3]).seq = 0 →
      (PortOp.applyAll (PortValue.default Nat) [PortOp.setOp 3]).val = none) ∧
    ((PortValue.mk (some 9) 4).set 7).seq = SequenceNumber.increment 4 ∧
    (((PortValue.mk (some 9) 4).replace 7).2).seq = SequenceNumber.increment 4 ∧
    (((PortValue.mk (some 9) 4).take).2).seq = SequenceNumber.increment 4 ∧
    (PortOp.apply (PortValue.mk (some 9) 4)
        (.writeSession [GuardAccess.writeAccess (fun x => x + 1)])).seq
      = SequenceNumber.increment 4 := by
  have h := C6_version_zero_means_empty (PortValue.default Nat)
    (Or.inl rfl) [PortOp.setOp 3] (PortValue.mk (some 9) 4) 9
    [GuardAccess.writeAccess (fun x => x + 1)]
  exact ⟨h.1, h.2.1, h.2.2.1, h.2.2.2.1,
    h.2.2.2.2 rfl ⟨fun x => x + 1, by simp⟩⟩

/-- C4: For every guard construction over a cell: if the cell holds no
value (and, for the non-blocking constructors, no conflicting lock
pre-empts the check), construction returns the no-value-set error; if
the non-blocking constructor (try_new) is used while a conflicting lock
is held by another holder, it returns the is-locked error instead of
waiting; the blocking constructor (new) never returns is-locked, and a
non-blocking attempt succeeds once no conflicting guard is held (and the
cell holds a value). -/
theorem C4_guard_construction_errors {T : Type} (port : String)
    (l : RwLockState) (c : PortValue T) :
    (c.val = none →
      (PortValueReadGuard.new port l c).1 = .error (.NoValueSet port)) ∧
    (c.val = none →
      (PortValueWriteGuard.new port l c).1 = .error (.NoValueSet port)) ∧
    (c.val = none → l.writer = false →
      (PortValueReadGuard.try_new port l c).1 = .error (.NoValueSet port)) ∧
    (c.val = none → l.writer = false → l.readers = 0 →
      (PortValueWriteGuard.try_new port l c).1 = .error (.NoValueSet port)) ∧
    (l.writer = true →
      (PortValueReadGuard.try_new port l c).1 = .error (.IsLocked port)) ∧
    ((l.writer = true ∨ 0 < l.readers) →
      (PortValueWriteGuard.try_new port l c).1 = .error (.IsLocked port)) ∧
    (∀ q, (PortValueReadGuard.new port l c).1 ≠ .error (.IsLocked q)) ∧
    (∀ q, (PortValueWriteGuard.new port l c).1 ≠ .error (.IsLocked q)) ∧
    (∀ v, c.val = some v → l.writer = false →
      (PortValueReadGuard.try_new port l c).1 = .ok v) ∧
    (∀ v, c.val = some v → l.writer = false → l.readers = 0 →
      (PortValueWriteGuard.try_new port l c).1 = .ok ⟨v, c.seq, false⟩) := by
  refine ⟨?_, ?_, ?_, ?_, ?_, ?_, ?_, ?_, ?_, ?_⟩
  · intro hv
    simp [PortValueReadGuard.new, hv]
  · intro hv
    simp [PortValueWriteGuard.new, hv]
  · intro hv hw
    simp [PortValueReadGuard.try_new, RwLockState.tryRead, hv, hw]
  · intro hv hw hr
    simp [PortValueWriteGuard.try_new, RwLockState.tryWrite, hv, hw, hr]
  · intro hw
    simp [PortValueReadGuard.try_new, RwLockState.tryRead, hw]
  · intro hw
    rcases hw with hw | hr
    · simp [PortValueWriteGuard.try_new, RwLockState.tryWrite, hw]
    · simp [PortValueWriteGuard.try_new, RwLockState.tryWrite, hr,
        Nat.pos_iff_ne_zero.mp hr]
  · intro q
    cases hv : c.val <;> simp [PortValueReadGuard.new, hv]
  · intro q
    cases hv : c.val <;> simp [PortValueWriteGuard.new, hv]
  · intro v hv hw
    simp [PortValueReadGuard.try_new, RwLockState.tryRead, hv, hw]
  · intro v hv hw hr
    simp [PortValueWriteGuard.try_new, RwLockState.tryWrite, hv, hw, hr]

/-- Witness for C4 at concrete cells and lock states: an empty unlocked
cell yields NoValueSet, a held lock yields IsLocked for the non-blocking
constructors, the blocking constructor never yields IsLocked, and a full
unlocked cell yields a guard. -/
theorem C4_guard_construction_errors_witness :
    (PortValueReadGuard.new "p" RwLockState.unlocked (PortValue.default Nat)).1
      = .error (.NoValueSet "p") ∧
    (PortValueWriteGuard.try_new "p" RwLockState.unlocked (PortValue.default Nat)).1
      = .error (.NoValueSet "p") ∧
    (PortValueReadGuard.try_new "p" ⟨0, true⟩ (PortValue.default Nat)).1
      = .error (.IsLocked "p") ∧
    (PortValueWriteGuard.try_new "p" ⟨1, false⟩ (PortValue.default Nat)).1
      = .error (.IsLocked "p") ∧
    (PortValueReadGuard.new "p" ⟨0, true⟩ (PortValue.default Nat)).1
      ≠ .error (.IsLocked "p") ∧
    (PortValueReadGuard.try_new "p" RwLockState.unlocked (PortValue.mk (some 7) 2)).1
      = .ok 7 ∧
    (PortValueWriteGuard.try_new "p" RwLockState.unlocked (PortValue.mk (some 7) 2)).1
      = .ok ⟨7, 2, false⟩ := by
  refine ⟨(C4_guard_construction_errors "p" RwLockState.unlocked
      (PortValue.default Nat)).1 rfl, ?_, ?_, ?_, ?_, ?_, ?_⟩
  · exact (C4_guard_construction_errors "p" RwLockState.unlocked
      (PortValue.default Nat)).2.2.2.1 rfl rfl rfl
  · exact (C4_guard_construction_errors "p" ⟨0, true⟩
      (PortValue.default Nat)).2.2.2.2.1 rfl
  · exact (C4_guard_construction_errors "p" ⟨1, false⟩
      (PortValue.default Nat)).2.2.2.2.2.1 (Or.inr (by decide))
  · exact (C4_guard_construction_errors "p" ⟨0, true⟩
      (PortValue.default Nat)).2.2.2.2.2.2.1 "p"
  · exact (C4_guard_construction_errors "p" RwLockState.unlocked
      (PortValue.mk (some 7) 2)).2.2.2.2.2.2.2.2.1 7 rfl rfl
  · exact (C4_guard_construction_errors "p" RwLockState.unlocked
      (PortValue.mk (some 7) 2)).2.2.2.2.2.2.2.2.2 7 rfl rfl rfl

/-- C5 (the claim is refuted by the code — the error path leaks the
lock): evaluated on an empty, unlocked cell, `PortValueWriteGuard::try_new`
returns the NoValueSet error while its leaked write lock REMAINS held,
so a subsequent try_write and try_read on the same cell fail with
IsLocked; the failed read-guard construction likewise leaves its leaked
read lock counted. -/
theorem C5_failed_construction_leaks_lock :
    (PortValueWriteGuard.try_new "p" RwLockState.unlocked (PortValue.default Nat)).1
      = .error (.NoValueSet "p") ∧
    ((PortValueWriteGuard.try_new "p" RwLockState.unlocked
        (PortValue.default Nat)).2).writer = true ∧
    (PortValueWriteGuard.try_new "p"
        (PortValueWriteGuard.try_new "p" RwLockState.unlocked
          (PortValue.default Nat)).2
        (PortValue.default Nat)).1 = .error (.IsLocked "p") ∧
    (PortValueReadGuard.try_new "p"
        (PortValueWriteGuard.try_new "p" RwLockState.unlocked
          (PortValue.default Nat)).2
        (PortValue.default Nat)).1 = .error (.IsLocked "p") ∧
    ((PortValueReadGuard.try_new "p" RwLockState.unlocked
        (PortValue.default Nat)).2).readers = 1 :=
  ⟨rfl, rfl, rfl, rfl, rfl⟩

/-- C1: After a successful `a.bind_to(&b)` between ports whose stored
type identities agree, `a` is left holding exactly `b`'s storage handle
and the heap is untouched, so every subsequent `get` through the bound
port equals a `get` through `b`, every `set`/`replace`/`take` through
either is the very same heap transformation, a third port `c` previously
bound to `b` observes the same cell, and a value written through one is
read back through the others — all of which persists as long as neither
port's handle is replaced again (only `set_value`/`bind_to` ever change
a handle). -/
theorem C1_bind_shares_storage (a b c : BoundInOutPort) (s : BindSys)
    (hty : (s.cells a.handle).tyId = (s.cells b.handle).tyId)
    (hc : c.handle = b.handle) :
    a.bind_to (.InOutBound b) s = (.ok (), (⟨b.handle⟩ : BoundInOutPort), s) ∧
    (∀ (s' : BindSys) (tid : Nat),
      BoundInOutPort.get tid ⟨b.handle⟩ s' = BoundInOutPort.get tid b s') ∧
    (∀ (s' : BindSys) (tid v : Nat),
      BoundInOutPort.set tid v ⟨b.handle⟩ s' = BoundInOutPort.set tid v b s') ∧
    (∀ (s' : BindSys) (tid v : Nat),
      BoundInOutPort.replace tid v ⟨b.handle⟩ s'
        = BoundInOutPort.replace tid v b s') ∧
    (∀ (s' : BindSys) (tid : Nat),
      BoundInOutPort.take tid ⟨b.handle⟩ s' = BoundInOutPort.take tid b s') ∧
    (∀ (s' : BindSys) (tid : Nat),
      BoundInOutPort.get tid c s' = BoundInOutPort.get tid b s') ∧
    (∀ (s' : BindSys) (tid v : Nat), (s'.cells b.handle).tyId = tid →
      BoundInOutPort.get tid ⟨b.handle⟩ (BoundInOutPort.set tid v b s').2
          = .ok (some v) ∧
      BoundInOutPort.get tid c (BoundInOutPort.set tid v ⟨b.handle⟩ s').2
          = .ok (some v)) := by
  obtain ⟨ha⟩ := a
  obtain ⟨hb⟩ := b
  obtain ⟨hch⟩ := c
  subst hc
  refine ⟨?_, fun s' tid => rfl, fun s' tid v => rfl, fun s' tid v => rfl,
    fun s' tid => rfl, fun s' tid => rfl, ?_⟩
  · simp [BoundInOutPort.bind_to, BoundInOutPort.set_value, hty]
  · intro s' tid v htid
    constructor <;>
      simp [BoundInOutPort.get, BoundInOutPort.set, BindSys.setCell, htid]

/-- Witness for C1 at concrete ports and heap. -/
theorem C1_bind_shares_storage_witness :
    BoundInOutPort.bind_to ⟨0⟩ (.InOutBound ⟨1⟩) witnessSysA
      = (.ok (), (⟨1⟩ : BoundInOutPort), witnessSysA) ∧
    (∀ (s' : BindSys) (tid : Nat),
      BoundInOutPort.get tid ⟨1⟩ s' = BoundInOutPort.get tid ⟨1⟩ s') ∧
    (∀ (s' : BindSys) (tid v : Nat),
      BoundInOutPort.set tid v ⟨1⟩ s' = BoundInOutPort.set tid v ⟨1⟩ s') ∧
    (∀ (s' : BindSys) (tid v : Nat),
      BoundInOutPort.replace tid v ⟨1⟩ s' = BoundInOutPort.replace tid v ⟨1⟩ s') ∧
    (∀ (s' : BindSys) (tid : Nat),
      BoundInOutPort.take tid ⟨1⟩ s' = BoundInOutPort.take tid ⟨1⟩ s') ∧
    (∀ (s' : BindSys) (tid : Nat),
      BoundInOutPort.get tid ⟨1⟩ s' = BoundInOutPort.get tid ⟨1⟩ s') ∧
    (∀ (s' : BindSys) (tid v : Nat), (s'.cells 1).tyId = tid →
      BoundInOutPort.get tid ⟨1⟩ (BoundInOutPort.set tid v ⟨1⟩ s').2
          = .ok (some v) ∧
      BoundInOutPort.get tid ⟨1⟩ (BoundInOutPort.set tid v ⟨1⟩ s').2
          = .ok (some v)) :=
  C1_bind_shares_storage ⟨0⟩ ⟨1⟩ ⟨1⟩ witnessSysA rfl rfl

/-- C2: For every pair of bound ports whose stored value types differ,
every binding attempt (`bind_to` / `set_value` / `use_from_bound`)
returns the wrong-data-type error (spelled `Error::WrongDataType` by the
in-out and out ports and `Error::DataType` by the in port — both denote
the spec's wrong-data-type condition), and both ports' storage handles,
stored values and sequence numbers are exactly as they were before the
call; the bind succeeds if and only if the stored type identities match. -/
theorem C2_bind_type_mismatch (a : BoundInOutPort) (b : BoundInPort)
    (d : BoundOutPort) (hb : Nat) (o : PortVariant) (s : BindSys) :
    ((s.cells a.handle).tyId ≠ (s.cells hb).tyId →
      a.set_value hb s = (.error .WrongDataType, a, s) ∧
      BindError.WrongDataType.isWrongDataType = true) ∧
    ((s.cells b.handle).tyId ≠ (s.cells hb).tyId →
      b.set_value hb s = (.error .DataType, b, s) ∧
      b.use_from_bound hb s = (.error .DataType, b, s) ∧
      BindError.DataType.isWrongDataType = true) ∧
    ((s.cells d.handle).tyId ≠ (s.cells hb).tyId →
      d.set_value hb s = (.error .WrongDataType, d, s)) ∧
    ((s.cells a.handle).tyId ≠ (s.cells o.handleOf).tyId →
      a.bind_to o s = (.error .WrongDataType, a, s)) ∧
    ((a.set_value hb s).1 = .ok ()
      ↔ (s.cells a.handle).tyId = (s.cells hb).tyId) ∧
    ((b.set_value hb s).1 = .ok ()
      ↔ (s.cells b.handle).tyId = (s.cells hb).tyId) ∧
    ((d.set_value hb s).1 = .ok ()
      ↔ (s.cells d.handle).tyId = (s.cells hb).tyId) := by
  refine ⟨?_, ?_, ?_, ?_, ?_, ?_, ?_⟩
  · intro hne
    exact ⟨by simp [BoundInOutPort.set_value, hne], rfl⟩
  · intro hne
    exact ⟨by simp [BoundInPort.set_value, hne],
      by simp [BoundInPort.use_from_bound, BoundInPort.set_value, hne], rfl⟩
  · intro hne
    simp [BoundOutPort.set_value, hne]
  · intro hne
    cases o <;>
      simp [BoundInOutPort.bind_to, BoundInOutPort.set_value,
        PortVariant.handleOf] at hne ⊢ <;>
      simp [hne]
  · unfold BoundInOutPort.set_value
    split <;> simp_all
  · unfold BoundInPort.set_value
    split <;> simp_all
  · unfold BoundOutPort.set_value
    split <;> simp_all

/-- Witness for C2 at a concrete heap where handle 0 has type identity 0
and handle 1 has type identity 1. -/
theorem C2_bind_type_mismatch_witness :
    BoundInOutPort.set_value ⟨0⟩ 1 witnessSysB
      = (.error .WrongDataType, (⟨0⟩ : BoundInOutPort), witnessSysB) ∧
    BoundInPort.set_value ⟨0⟩ 1 witnessSysB
      = (.error .DataType, (⟨0⟩ : BoundInPort), witnessSysB) ∧
    BoundOutPort.set_value ⟨0⟩ 1 witnessSysB
      = (.error .WrongDataType, (⟨0⟩ : BoundOutPort), witnessSysB) ∧
    BoundInOutPort.bind_to ⟨0⟩ (.InBound ⟨1⟩) witnessSysB
      = (.error .WrongDataType, (⟨0⟩ : BoundInOutPort), witnessSysB) ∧
    ((BoundInOutPort.set_value ⟨0⟩ 1 witnessSysB).1 = .ok ()
      ↔ (witnessSysB.cells 0).tyId = (witnessSysB.cells 1).tyId) := by
  have h := C2_bind_type_mismatch ⟨0⟩ ⟨0⟩ ⟨0⟩ 1 (.InBound ⟨1⟩) witnessSysB
  have hne : (witnessSysB.cells 0).tyId ≠ (witnessSysB.cells 1).tyId := by
    simp [witnessSysB]
  exact ⟨(h.1 hne).1, (h.2.1 hne).1, h.2.2.1 hne, h.2.2.2.1 hne,
    h.2.2.2.2.1⟩

end Dataport
